import Mathlib

/-!
Shallow embedding of `src/exporter.py` (Plusnet Hub One → InfluxDB exporter).

The program is a sequential pipeline: login to the router's web interface,
fetch the connection-information page, scrape labeled table fields into a
`Stats` record, and write one time-series point per cycle to InfluxDB.

External collaborators (the HTTP transport, BeautifulSoup lookups, the
`dehumanise.human2bytes` unit parser, Python's `int`/`float`/`strptime`
builtins, MD5, and the InfluxDB client) are modelled as capabilities carried
by an `Env`; the control flow, string manipulation, error propagation and
session-state mutation of the exporter itself are translated directly from
the source.

Python exception semantics are modelled by `PyErr` together with
`PyErr.isException`: `SystemExit` (raised by `exit(1)`) and
`KeyboardInterrupt` derive from `BaseException` but not from `Exception`,
so the collection loop's `except Exception` handler does not catch them.
-/

/-- Python exception values that the exporter can raise or propagate. -/
inductive PyErr where
  /-- `KeyError`: dict subscript miss, e.g. `cookies.get_dict()["rg_cookie_session_id"]`. -/
  | keyError (k : String)
  /-- `AttributeError`: attribute access on `None`, e.g. `find(...) = None` then `.next_sibling`. -/
  | attributeError
  /-- `TypeError`: subscripting `None`, e.g. `find(...)["value"]` when the input is absent. -/
  | typeError
  /-- `ValueError`: failed `int()` / `float()` / `human2bytes` conversion or tuple unpacking. -/
  | valueError
  /-- `IndexError`: list subscript out of range, e.g. `split(...)[1]`. -/
  | indexError
  /-- A `requests` transport failure (timeout / connection error). -/
  | networkError
  /-- A failure raised by the InfluxDB client's `write_points`. -/
  | influxError
  /-- `RecursionError`: the interpreter's recursion limit, reachable via the
  recursive re-login in `collect_stats`. -/
  | recursionError
  /-- `SystemExit (code)`: raised by `exit(code)`; derives from `BaseException` only. -/
  | systemExit (code : Nat)
  /-- `KeyboardInterrupt`; derives from `BaseException` only. -/
  | keyboardInterrupt
deriving DecidableEq

/-- Whether the error is an instance of Python's `Exception` class, i.e. is
caught by the loop's `except Exception` handler. -/
def PyErr.isException : PyErr → Bool
  | .systemExit _ => false
  | .keyboardInterrupt => false
  | _ => true

/-- A field value of the `Stats` dataclass: Python `int` or `float`
(floats modelled as rationals; only construction and forwarding matter here). -/
inductive FieldValue where
  | intV (n : Int)
  | ratV (q : Rat)
deriving DecidableEq

/-- The `PlusnetHubOne.Stats` dataclass: all fields are keyword-only and
required, so a value exists only with every field populated. -/
structure Stats where
  total_tx : Int
  total_rx : Int
  firmware_update_datetime : Int
  reboot_datetime : Int
  data_rate_tx : Int
  data_rate_rx : Int
  max_data_rate_tx : Int
  max_data_rate_rx : Int
  noise_margin_tx : Rat
  noise_margin_rx : Rat
  line_attenuation_tx : Rat
  line_attenuation_rx : Rat
  signal_attenuation_tx : Rat
  signal_attenuation_rx : Rat
deriving DecidableEq

/-- `dataclasses.asdict(stats)`: the ordered name-to-value mapping of the
dataclass fields, in declaration order. -/
def Stats.fields (st : Stats) : List (String × FieldValue) :=
  [("total_tx", .intV st.total_tx),
   ("total_rx", .intV st.total_rx),
   ("firmware_update_datetime", .intV st.firmware_update_datetime),
   ("reboot_datetime", .intV st.reboot_datetime),
   ("data_rate_tx", .intV st.data_rate_tx),
   ("data_rate_rx", .intV st.data_rate_rx),
   ("max_data_rate_tx", .intV st.max_data_rate_tx),
   ("max_data_rate_rx", .intV st.max_data_rate_rx),
   ("noise_margin_tx", .ratV st.noise_margin_tx),
   ("noise_margin_rx", .ratV st.noise_margin_rx),
   ("line_attenuation_tx", .ratV st.line_attenuation_tx),
   ("line_attenuation_rx", .ratV st.line_attenuation_rx),
   ("signal_attenuation_tx", .ratV st.signal_attenuation_tx),
   ("signal_attenuation_rx", .ratV st.signal_attenuation_rx)]

/-- The names of the `Stats` dataclass fields, in declaration order. -/
def statsFieldNames : List String :=
  ["total_tx", "total_rx", "firmware_update_datetime", "reboot_datetime",
   "data_rate_tx", "data_rate_rx", "max_data_rate_tx", "max_data_rate_rx",
   "noise_margin_tx", "noise_margin_rx", "line_attenuation_tx",
   "line_attenuation_rx", "signal_attenuation_tx", "signal_attenuation_rx"]

/-- An HTML page as the exporter observes it: its raw text (substring checks
and the reboot-time regex run on this), BeautifulSoup's
`find("td", text=label).next_sibling.text` lookup, and
`find("input", {"name": name})["value"]` lookup. `none` models `find`
returning `None` (or the sibling/value being absent), on which Python raises. -/
structure Page where
  text : String
  td : String → Option String
  inputValue : String → Option String

/-- An HTTP response: the page plus cookies the server sets on the session. -/
structure Response where
  page : Page
  setCookies : List (String × String)

/-- Outcome of one HTTP request in the environment: a response, a transport
failure, or a user interrupt delivered during the blocking call. -/
inductive HttpResult where
  | ok (r : Response)
  | netErr
  | interrupt

/-- The external world and external capabilities: the stream of HTTP
outcomes (indexed by request count), the sink's success per write attempt,
the current time (integer seconds), the CLI interval, the interpreter's
recursion limit, and the library functions the exporter calls. -/
structure Env where
  http : Nat → HttpResult
  sink : Nat → Bool
  now : Int
  interval : Nat
  recLimit : Nat
  md5 : String → String
  human2bytes : String → Option Int
  parseInt : String → Option Int
  parseFloat : String → Option Rat
  parseDateDMY : String → Option Int

/-- Mutable session state: number of HTTP requests made so far, number of
sink writes attempted so far, and the cookie jar. -/
structure SState where
  idx : Nat
  widx : Nat
  cookies : List (String × String)

/-- Observable actions of a run, for stating trace properties. -/
inductive Act where
  /-- A `GET` of the connection-information page inside `collect_stats`. -/
  | getStatus (page : Page)
  /-- The `logging.warning("cookie expired, must login again: ...")` emitted
  when the expired-session marker is detected. -/
  | warnExpired
  /-- Entry into `login()`. -/
  | loginCall
  /-- The `GET` issued at the start of `login()`. -/
  | getLogin (page : Page)
  /-- The login form `POST`, with the submitted form data. -/
  | postLogin (form : List (String × String))
  /-- A successful `write_points` call carrying the single point written. -/
  | write (measurement : String) (time : Int) (fields : List (String × FieldValue))
  /-- The `logging.exception(e)` in the loop's `except Exception` handler. -/
  | logErr (e : PyErr)
  /-- The `time.sleep(args.interval)` at the end of a cycle. -/
  | sleep (n : Nat)

/-- Substring search on char lists, as Python's `in` operator. -/
def hasSub (p : List Char) : List Char → Bool
  | [] => p.isEmpty
  | c :: rest => p.isPrefixOf (c :: rest) || hasSub p rest

/-- `pat in s` for Python strings. -/
def containsStr (s pat : String) : Bool :=
  hasSub pat.toList s.toList

/-- Structural worker for `pySplit`, with a fuel argument bounding the scan. -/
def splitAux (sep : List Char) : Nat → List Char → List (List Char)
  | _, [] => [[]]
  | 0, l => [l]
  | fuel + 1, c :: rest =>
    if sep.isPrefixOf (c :: rest) then
      [] :: splitAux sep fuel ((c :: rest).drop sep.length)
    else
      match splitAux sep fuel rest with
      | [] => [[c]]
      | h :: t => (c :: h) :: t

/-- Python `s.split(sep)` for a non-empty separator: non-overlapping,
left-to-right, keeping empty parts. -/
def pySplit (s sep : String) : List String :=
  (splitAux sep.toList s.toList.length s.toList).map (fun l => String.mk l)

/-- Python `s.strip()`: remove leading and trailing whitespace. -/
def pyStrip (s : String) : String :=
  String.mk (((s.toList.dropWhile Char.isWhitespace).reverse.dropWhile
    Char.isWhitespace).reverse)

/-- Attempt to match `wait = (\d*);` at the head of the char list; on
success return the digit group. -/
def waitAt (l : List Char) : Option String :=
  if ("wait = ".toList).isPrefixOf l then
    let after := l.drop 7
    let ds := after.takeWhile Char.isDigit
    match after.dropWhile Char.isDigit with
    | ';' :: _ => some (String.mk ds)
    | _ => none
  else none

/-- Leftmost-match scan for `wait = (\d*);` over the char list. -/
def waitScan : List Char → Option String
  | [] => none
  | c :: rest =>
    match waitAt (c :: rest) with
    | some ds => some ds
    | none => waitScan rest

/-- `REBOOT_TIME_PATTERN.search(text)` followed by `.group(1)`:
the digit group of the first occurrence of `wait = (\d*);`, if any. -/
def rebootSearch (text : String) : Option String :=
  waitScan text.toList

/-- Merge cookies set by a response into the jar (newest first). -/
def mergeCookies (old new : List (String × String)) : List (String × String) :=
  new ++ old

/-- `session.cookies.get_dict()[k]`-style lookup, newest binding first. -/
def getCookie (cs : List (String × String)) (k : String) : Option String :=
  (cs.find? (fun p => p.1 == k)).map (fun p => p.2)

/-- The vendor session-cookie name read at the top of `collect_stats`. -/
def cookieName : String := "rg_cookie_session_id"

/-- The expired-session marker checked by `collect_stats` ("hacky way to
check if we are logged in"). -/
def expiredMarker : String := "password protected"

/-- The session-limit-exceeded marker checked by `login`. -/
def limitMarker : String :=
  "No more than 100 sessions at a time are allowed. Please wait until open sessions expire."

/-- The labeled table rows `collect_stats` scrapes. -/
def usageLabel : String := "11. Data sent/received:"

/-- The firmware-version row label. -/
def fwLabel : String := "3. Firmware version:"

/-- The data-rate row label. -/
def rateLabel : String := "6. Data rate:"

/-- The maximum-data-rate row label. -/
def maxRateLabel : String := "7. Maximum data rate:"

/-- The noise-margin row label. -/
def noiseLabel : String := "8. Noise margin:"

/-- The line-attenuation row label. -/
def lineAttLabel : String := "9. Line attenuation:"

/-- The signal-attenuation row label. -/
def sigAttLabel : String := "10. Signal attenuation:"

/-- The login form data built by `login()`. -/
def loginForm (post_token md5_pass auth_key : String) : List (String × String) :=
  [("active_page", "9148"),
   ("mimic_button_field", "submit_button_login_submit: .."),
   ("post_token", post_token),
   ("md5_pass", md5_pass),
   ("auth_key", auth_key)]

/-- Issue one HTTP request: consume the next event, advance the request
counter, merge any cookies the response sets. A transport failure raises
`NetworkError`; an interrupt delivered during the blocking call raises
`KeyboardInterrupt`. -/
def doReq (env : Env) (s : SState) : SState × Except PyErr Page :=
  match env.http s.idx with
  | .netErr => ({ s with idx := s.idx + 1 }, .error .networkError)
  | .interrupt => ({ s with idx := s.idx + 1 }, .error .keyboardInterrupt)
  | .ok r =>
    ({ s with idx := s.idx + 1, cookies := mergeCookies s.cookies r.setCookies },
     .ok r.page)

/-- `PlusnetHubOne.login`: GET the status URL (redirected to the login page
when unauthenticated); `exit(1)` on the session-limit marker; extract
`auth_key` and `post_token` from the form inputs; build
`md5_pass = md5(password + auth_key)`; POST the login form. -/
def login (env : Env) (pw : String) (s : SState) :
    List Act × SState × Except PyErr Unit :=
  match doReq env s with
  | (s1, .error e) => ([Act.loginCall], s1, .error e)
  | (s1, .ok page) =>
    if containsStr page.text limitMarker then
      ([Act.loginCall, Act.getLogin page], s1, .error (.systemExit 1))
    else
      match page.inputValue "auth_key" with
      | none => ([Act.loginCall, Act.getLogin page], s1, .error .typeError)
      | some auth_key =>
        match page.inputValue "post_token" with
        | none => ([Act.loginCall, Act.getLogin page], s1, .error .typeError)
        | some post_token =>
          let form := loginForm post_token (env.md5 (pw ++ auth_key)) auth_key
          match doReq env s1 with
          | (s2, .error e) =>
            ([Act.loginCall, Act.getLogin page], s2, .error e)
          | (s2, .ok _) =>
            ([Act.loginCall, Act.getLogin page, Act.postLogin form],
             s2, .ok ())

/-- `soup.find("td", text=label).next_sibling.text`: `AttributeError` when the
row (or its sibling text) is absent. -/
def getTd (page : Page) (label : String) : Except PyErr String :=
  match page.td label with
  | none => .error .attributeError
  | some t => .ok t

/-- Tuple unpacking `a, b = text.split("/")`: `ValueError` unless the split
yields exactly two parts. -/
def splitPair (s : String) : Except PyErr (String × String) :=
  match pySplit s "/" with
  | [a, b] => .ok (a, b)
  | _ => .error .valueError

/-- `human2bytes(value.strip())` over the parts of the usage cell, in order,
as the list comprehension does; `ValueError` on an unparseable part. -/
def mapHuman (env : Env) : List String → Except PyErr (List Int)
  | [] => .ok []
  | v :: rest =>
    match env.human2bytes (pyStrip v) with
    | none => .error .valueError
    | some n =>
      match mapHuman env rest with
      | .error e => .error e
      | .ok ns => .ok (n :: ns)

/-- Lines 104-108: find the usage row, split on "/", convert each part with
`human2bytes`, and unpack into (transmitted, received). -/
def getUsage (env : Env) (page : Page) : Except PyErr (Int × Int) :=
  match getTd page usageLabel with
  | .error e => .error e
  | .ok raw =>
    match mapHuman env (pySplit raw "/") with
    | .error e => .error e
    | .ok [t, r] => .ok (t, r)
    | .ok _ => .error .valueError

/-- Lines 110-113: find the firmware row, take the part after
"Last updated " (index 1: `IndexError` if absent), and `strptime` it with
format `%d/%m/%y` (`ValueError` on a malformed date). -/
def getFirmware (env : Env) (page : Page) : Except PyErr Int :=
  match getTd page fwLabel with
  | .error e => .error e
  | .ok raw =>
    match (pySplit raw "Last updated ").get? 1 with
    | none => .error .indexError
    | some d =>
      match env.parseDateDMY d with
      | none => .error .valueError
      | some t => .ok t

/-- Lines 115-116: `REBOOT_TIME_PATTERN.search(...).group(1)`
(`AttributeError` when the pattern does not occur), `int(...)` it, and
subtract from the current time. -/
def getReboot (env : Env) (text : String) : Except PyErr Int :=
  match rebootSearch text with
  | none => .error .attributeError
  | some ds =>
    match env.parseInt ds with
    | none => .error .valueError
    | some u => .ok (env.now - u)

/-- A labeled row holding a "tx/rx" pair, returned as raw strings
(conversion happens later, in the `Stats(...)` constructor call). -/
def getPairStr (page : Page) (label : String) : Except PyErr (String × String) :=
  match getTd page label with
  | .error e => .error e
  | .ok raw => splitPair raw

/-- `int(s)` via the environment: `ValueError` on failure. -/
def parseIntE (env : Env) (s : String) : Except PyErr Int :=
  match env.parseInt s with
  | none => .error .valueError
  | some n => .ok n

/-- `float(s)` via the environment: `ValueError` on failure. -/
def parseFloatE (env : Env) (s : String) : Except PyErr Rat :=
  match env.parseFloat s with
  | none => .error .valueError
  | some q => .ok q

/-- Lines 104-157 of `collect_stats`, after the login check: scrape every
labeled row in source order, then perform the conversions in the order the
`Stats(...)` constructor call evaluates them, producing the record. -/
def extractStats (env : Env) (page : Page) : Except PyErr Stats :=
  match getUsage env page with
  | .error e => .error e
  | .ok (transmitted, received) =>
  match getFirmware env page with
  | .error e => .error e
  | .ok fwTime =>
  match getReboot env page.text with
  | .error e => .error e
  | .ok rebootTime =>
  match getPairStr page rateLabel with
  | .error e => .error e
  | .ok (dr_tx, dr_rx) =>
  match getPairStr page maxRateLabel with
  | .error e => .error e
  | .ok (mdr_tx, mdr_rx) =>
  match getPairStr page noiseLabel with
  | .error e => .error e
  | .ok (nm_tx, nm_rx) =>
  match getPairStr page lineAttLabel with
  | .error e => .error e
  | .ok (la_tx, la_rx) =>
  match getPairStr page sigAttLabel with
  | .error e => .error e
  | .ok (sa_tx, sa_rx) =>
  match parseIntE env dr_tx with
  | .error e => .error e
  | .ok drtx =>
  match parseIntE env dr_rx with
  | .error e => .error e
  | .ok drrx =>
  match parseIntE env mdr_tx with
  | .error e => .error e
  | .ok mdrtx =>
  match parseIntE env mdr_rx with
  | .error e => .error e
  | .ok mdrrx =>
  match parseFloatE env nm_tx with
  | .error e => .error e
  | .ok nmtx =>
  match parseFloatE env nm_rx with
  | .error e => .error e
  | .ok nmrx =>
  match parseFloatE env la_tx with
  | .error e => .error e
  | .ok latx =>
  match parseFloatE env la_rx with
  | .error e => .error e
  | .ok larx =>
  match parseFloatE env sa_tx with
  | .error e => .error e
  | .ok satx =>
  match parseFloatE env sa_rx with
  | .error e => .error e
  | .ok sarx =>
    .ok { total_tx := transmitted
          total_rx := received
          firmware_update_datetime := fwTime
          reboot_datetime := rebootTime
          data_rate_tx := drtx
          data_rate_rx := drrx
          max_data_rate_tx := mdrtx
          max_data_rate_rx := mdrrx
          noise_margin_tx := nmtx
          noise_margin_rx := nmrx
          line_attenuation_tx := latx
          line_attenuation_rx := larx
          signal_attenuation_tx := satx
          signal_attenuation_rx := sarx }

/-- `PlusnetHubOne.collect_stats`: GET the connection-information page, read
the session cookie from the jar (`KeyError` when absent), then check the
expired-session marker; on the marker, log a warning, `login()`, and recurse
(the source recursion is unbounded; `fuel` models the interpreter's
recursion limit, exhaustion being `RecursionError`). Otherwise extract the
statistics from the page. -/
def collect_stats (env : Env) (pw : String) :
    Nat → SState → List Act × SState × Except PyErr Stats
  | 0, s => ([], s, .error .recursionError)
  | fuel + 1, s =>
    match doReq env s with
    | (s1, .error e) => ([], s1, .error e)
    | (s1, .ok page) =>
      match getCookie s1.cookies cookieName with
      | none => ([Act.getStatus page], s1, .error (.keyError cookieName))
      | some _ =>
        if containsStr page.text expiredMarker then
          match login env pw s1 with
          | (trL, s2, .error e) =>
            (Act.getStatus page :: Act.warnExpired :: trL, s2, .error e)
          | (trL, s2, .ok _) =>
            match collect_stats env pw fuel s2 with
            | (trR, s3, r) =>
              (Act.getStatus page :: Act.warnExpired :: (trL ++ trR), s3, r)
        else
          ([Act.getStatus page], s1, extractStats env page)

/-- The body of the loop's `try` block (lines 224-235): collect the stats,
then write a single point with measurement "data_stats", the current time,
and `asdict(stats)` as fields. A sink failure raises out of the block. -/
def cycleBody (env : Env) (pw : String) (s : SState) :
    List Act × SState × Except PyErr Unit :=
  match collect_stats env pw env.recLimit s with
  | (tr, s1, .error e) => (tr, s1, .error e)
  | (tr, s1, .ok st) =>
    if env.sink s1.widx then
      (tr ++ [Act.write "data_stats" env.now st.fields],
       { s1 with widx := s1.widx + 1 }, .ok ())
    else
      (tr, { s1 with widx := s1.widx + 1 }, .error .influxError)

/-- How the process ends (or doesn't): a `sys.exit`/`SystemExit` exit code,
an uncaught-exception crash (interpreter exits with a traceback), or still
running after the observed number of cycles. -/
inductive Outcome where
  | exited (code : Nat)
  | crashed (e : PyErr)
  | running (s : SState)

/-- What becomes of an error the loop's `except Exception` does not catch:
`SystemExit c` exits with code `c`; `KeyboardInterrupt` reaches the
module-level handler which calls `sys.exit(0)`; any other uncaught
exception crashes the interpreter. -/
def escalate (e : PyErr) : Outcome :=
  match e with
  | .systemExit c => .exited c
  | .keyboardInterrupt => .exited 0
  | e => .crashed e

/-- The `while True` loop (lines 221-242), observed for `n` cycles: run the
`try` block; on an `Exception` log it and fall through; sleep the fixed
interval; repeat. Errors that are not `Exception`s escape the loop. -/
def runLoop (env : Env) (pw : String) : Nat → SState → List Act × Outcome
  | 0, s => ([], .running s)
  | n + 1, s =>
    match cycleBody env pw s with
    | (tr, s1, .ok _) =>
      match runLoop env pw n s1 with
      | (tr2, o) => (tr ++ Act.sleep env.interval :: tr2, o)
    | (tr, s1, .error e) =>
      if e.isException then
        match runLoop env pw n s1 with
        | (tr2, o) => (tr ++ Act.logErr e :: Act.sleep env.interval :: tr2, o)
      else
        (tr, escalate e)

/-- `main` after argument parsing: the startup `login()` (line 211, outside
any handler), then the collection loop. An error in the startup login is
uncaught (except by the module-level `KeyboardInterrupt` handler). -/
def mainRun (env : Env) (pw : String) (n : Nat) : List Act × Outcome :=
  match login env pw ⟨0, 0, []⟩ with
  | (tr, _, .error e) => (tr, escalate e)
  | (tr, s1, .ok _) =>
    match runLoop env pw n s1 with
    | (tr2, o) => (tr ++ tr2, o)

/-- Count of `login()` entries in a trace. -/
def countLoginCalls : List Act → Nat
  | [] => 0
  | Act.loginCall :: tr => countLoginCalls tr + 1
  | _ :: tr => countLoginCalls tr

/-- Count of expired-session detections (the warning log) in a trace. -/
def countWarns : List Act → Nat
  | [] => 0
  | Act.warnExpired :: tr => countWarns tr + 1
  | _ :: tr => countWarns tr

/-- Count of successful point writes in a trace. -/
def countWrites : List Act → Nat
  | [] => 0
  | Act.write _ _ _ :: tr => countWrites tr + 1
  | _ :: tr => countWrites tr

/-- Whether an `Except` result is a success. -/
def isOkE (r : Except PyErr Stats) : Bool :=
  match r with
  | .ok _ => true
  | .error _ => false

/-! ### Concrete fixtures
Test fixtures instantiating the external capabilities and page shapes, used
to evaluate the embedded exporter on concrete runs. -/

/-- Fixture: non-empty all-digit check. -/
def digitsOnly (l : List Char) : Bool := !l.isEmpty && l.all Char.isDigit

/-- Fixture: numeric value of a digit list. -/
def natOfDigits (l : List Char) : Nat := l.foldl (fun a c => a * 10 + (c.toNat - 48)) 0

/-- Fixture capability standing in for Python's `int(...)` on the inputs the
fixtures produce: strips whitespace, accepts plain digit strings. -/
def simpleParseInt (s : String) : Option Int :=
  if digitsOnly (pyStrip s).toList then some (natOfDigits (pyStrip s).toList) else none

/-- Fixture: a status page whose body carries the expired-session marker. -/
def expiredPage : Page :=
  { text := "This page is password protected.",
    td := fun _ => none, inputValue := fun _ => none }

/-- Fixture: the login form page, carrying the auth inputs. -/
def loginPage : Page :=
  { text := "login form",
    td := fun _ => none,
    inputValue := fun name =>
      if name == "auth_key" then some "AK"
      else if name == "post_token" then some "PT" else none }

/-- Fixture: an empty page (no marker, no rows, no inputs). -/
def blankPage : Page :=
  { text := "", td := fun _ => none, inputValue := fun _ => none }

/-- Fixture: the session-limit page served when too many sessions are open. -/
def limitPage : Page :=
  { text := limitMarker, td := fun _ => none, inputValue := fun _ => none }

/-- Fixture: the labeled rows of a well-formed connection-information page. -/
def goodRows : List (String × String) :=
  [(usageLabel, "1 GB / 2 GB"),
   (fwLabel, "4.7.5.1.83.8.265.1.41 (Type A) Last updated 01/02/21"),
   (rateLabel, "10 / 20"),
   (maxRateLabel, "11 / 21"),
   (noiseLabel, "6.1 / 9.2"),
   (lineAttLabel, "0.0 / 26.0"),
   (sigAttLabel, "0.0 / 24.0")]

/-- Fixture: a well-formed connection-information page. -/
def goodPage : Page :=
  { text := "some script; wait = 120; more",
    td := fun lbl => goodRows.lookup lbl,
    inputValue := fun _ => none }

/-- Fixture: an environment from a finite list of HTTP events (further
requests fail at the transport). -/
def mkEnv (events : List HttpResult) : Env :=
  { http := fun n => (events.get? n).getD HttpResult.netErr,
    sink := fun _ => true,
    now := 1000,
    interval := 15,
    recLimit := 10,
    md5 := fun s => s ++ "#md5",
    human2bytes := fun s =>
      if s == "1 GB" then some 1000000000
      else if s == "2 GB" then some 2000000000 else none,
    parseInt := simpleParseInt,
    parseFloat := fun _ => some 3,
    parseDateDMY := fun s => if s == "01/02/21" then some 1612137600 else none }

/-- Fixture: the cookie the router sets on first contact. -/
def sc : List (String × String) := [("rg_cookie_session_id", "abc")]

/-- Fixture: a run in which the expired-session marker is served twice in a
row before a good page, so one `collect_stats` call re-logins twice. -/
def envTwo : Env := mkEnv
  [HttpResult.ok ⟨expiredPage, sc⟩,
   HttpResult.ok ⟨loginPage, []⟩,
   HttpResult.ok ⟨blankPage, []⟩,
   HttpResult.ok ⟨expiredPage, []⟩,
   HttpResult.ok ⟨loginPage, []⟩,
   HttpResult.ok ⟨blankPage, []⟩,
   HttpResult.ok ⟨goodPage, []⟩]

/-- Fixture: a single well-formed status page with the session cookie. -/
def envGood : Env := mkEnv [HttpResult.ok ⟨goodPage, sc⟩]

/-- Fixture: the router is unreachable (every request fails). -/
def envNet : Env := mkEnv []

/-- Fixture: the router serves the session-limit page. -/
def envLimit : Env := mkEnv [HttpResult.ok ⟨limitPage, []⟩]

/-- Fixture: an expired-session page with no session cookie in the jar. -/
def envNoCookie : Env := mkEnv [HttpResult.ok ⟨expiredPage, []⟩]

/-- Fixture: an expired-session page, then the session-limit page on the
re-login attempt. -/
def envMidLimit : Env := mkEnv
  [HttpResult.ok ⟨expiredPage, sc⟩, HttpResult.ok ⟨limitPage, []⟩]

/-- Fixture: a login page then a blank POST response. -/
def envLogin : Env := mkEnv
  [HttpResult.ok ⟨loginPage, []⟩, HttpResult.ok ⟨blankPage, []⟩]

/-- Fixture: a page with the cookie but no scrapeable rows, so extraction
raises an ordinary exception. -/
def envMiss : Env := mkEnv [HttpResult.ok ⟨blankPage, sc⟩]

/-- Fixture: the record extracted from `goodPage` under `mkEnv`'s
capabilities. -/
def stGood : Stats :=
  { total_tx := 1000000000, total_rx := 2000000000,
    firmware_update_datetime := 1612137600, reboot_datetime := 880,
    data_rate_tx := 10, data_rate_rx := 20,
    max_data_rate_tx := 11, max_data_rate_rx := 21,
    noise_margin_tx := 3, noise_margin_rx := 3,
    line_attenuation_tx := 3, line_attenuation_rx := 3,
    signal_attenuation_tx := 3, signal_attenuation_rx := 3 }

/-- The labeled rows `collect_stats` requires; extraction succeeds only when
all are present. -/
def expectedLabels : List String :=
  [usageLabel, fwLabel, rateLabel, maxRateLabel, noiseLabel, lineAttLabel,
   sigAttLabel]

/-- All expected labels resolve to a row on the page. -/
def labelsPresent (page : Page) : Bool :=
  expectedLabels.all (fun l => (page.td l).isSome)


/-! ### Helper lemmas -/

/-- Login-call counting distributes over trace concatenation. -/
theorem countLoginCalls_append (a b : List Act) :
    countLoginCalls (a ++ b) = countLoginCalls a + countLoginCalls b := by
  induction a with
  | nil => simp [countLoginCalls]
  | cons x xs ih => cases x <;> simp [countLoginCalls, ih] <;> omega

/-- Warning counting distributes over trace concatenation. -/
theorem countWarns_append (a b : List Act) :
    countWarns (a ++ b) = countWarns a + countWarns b := by
  induction a with
  | nil => simp [countWarns]
  | cons x xs ih => cases x <;> simp [countWarns, ih] <;> omega

/-- Write counting distributes over trace concatenation. -/
theorem countWrites_append (a b : List Act) :
    countWrites (a ++ b) = countWrites a + countWrites b := by
  induction a with
  | nil => simp [countWrites]
  | cons x xs ih => cases x <;> simp [countWrites, ih] <;> omega

/-- A trace whose write count is zero has no write action. -/
theorem countWrites_zero_not_mem {tr : List Act} (h : countWrites tr = 0)
    (m : String) (t : Int) (fl : List (String × FieldValue)) :
    Act.write m t fl ∉ tr := by
  induction tr with
  | nil => simp
  | cons x xs ih =>
    intro hmem
    rcases List.mem_cons.mp hmem with h1 | h1
    · subst h1
      simp [countWrites] at h
    · cases x <;> simp [countWrites] at h <;> exact ih h h1

/-- `login` enters exactly once per call, whatever happens inside. -/
theorem login_countLoginCalls (env : Env) (pw : String) (s : SState) :
    countLoginCalls (login env pw s).1 = 1 := by
  unfold login
  repeat' split
  all_goals simp [countLoginCalls]

/-- `login` never logs an expired-session warning. -/
theorem login_countWarns (env : Env) (pw : String) (s : SState) :
    countWarns (login env pw s).1 = 0 := by
  unfold login
  repeat' split
  all_goals simp [countWarns]

/-- `login` writes no points. -/
theorem login_countWrites (env : Env) (pw : String) (s : SState) :
    countWrites (login env pw s).1 = 0 := by
  unfold login
  repeat' split
  all_goals simp [countWrites]

/-- `collect_stats` writes no points. -/
theorem collect_countWrites (env : Env) (pw : String) (fuel : Nat) (s : SState) :
    countWrites (collect_stats env pw fuel s).1 = 0 := by
  induction fuel generalizing s with
  | zero => simp [collect_stats, countWrites]
  | succ n ih =>
    unfold collect_stats
    rcases hreq : doReq env s with ⟨s1, g⟩
    cases g with
    | error e => simp [countWrites]
    | ok page =>
      cases hc : getCookie s1.cookies cookieName with
      | none => simp [hc, countWrites]
      | some v =>
        cases hm : containsStr page.text expiredMarker with
        | false => simp [hc, hm, countWrites]
        | true =>
          rcases hl : login env pw s1 with ⟨trL, s2, rl⟩
          have h1 : countWrites trL = 0 := by
            have := login_countWrites env pw s1
            rw [hl] at this
            exact this
          cases rl with
          | error e => simp [hc, hm, hl, countWrites, h1]
          | ok u =>
            rcases hr : collect_stats env pw n s2 with ⟨trR, s3, r⟩
            have h3 := ih s2
            rw [hr] at h3
            simp [hc, hm, hl, hr, countWrites, countWrites_append, h1, h3]

/-- C1 (amended): every expired-session detection in a `collect_stats` call
is followed by exactly one `login()` entry — re-logins and detections are in
bijection within a cycle, with no bound on how many detections (hence
re-logins) a single cycle can perform. -/
theorem C1_thm (env : Env) (pw : String) (fuel : Nat) (s : SState) :
    countLoginCalls (collect_stats env pw fuel s).1 =
    countWarns (collect_stats env pw fuel s).1 := by
  induction fuel generalizing s with
  | zero => simp [collect_stats, countLoginCalls, countWarns]
  | succ n ih =>
    unfold collect_stats
    rcases hreq : doReq env s with ⟨s1, g⟩
    cases g with
    | error e => simp [countLoginCalls, countWarns]
    | ok page =>
      cases hc : getCookie s1.cookies cookieName with
      | none => simp [hc, countLoginCalls, countWarns]
      | some v =>
        cases hm : containsStr page.text expiredMarker with
        | false => simp [hc, hm, countLoginCalls, countWarns]
        | true =>
          rcases hl : login env pw s1 with ⟨trL, s2, rl⟩
          have h1 : countLoginCalls trL = 1 := by
            have := login_countLoginCalls env pw s1
            rw [hl] at this
            exact this
          have h2 : countWarns trL = 0 := by
            have := login_countWarns env pw s1
            rw [hl] at this
            exact this
          cases rl with
          | error e => simp [hc, hm, hl, countLoginCalls, countWarns, h1, h2]
          | ok u =>
            rcases hr : collect_stats env pw n s2 with ⟨trR, s3, r⟩
            have h3 := ih s2
            rw [hr] at h3
            simp [hc, hm, hl, hr, countLoginCalls, countWarns,
              countLoginCalls_append, countWarns_append, h1, h2, h3]
            omega

/-- C1 (counterexample): in the run `envTwo` a single collection cycle's
`collect_stats` call detects the expired-session marker twice and performs
two re-logins before succeeding — the retry is recursive, not bounded to one
re-authentication attempt per cycle. -/
theorem C1_cex :
    countLoginCalls (collect_stats envTwo "pw" 10 ⟨0, 0, []⟩).1 = 2 ∧
    countWarns (collect_stats envTwo "pw" 10 ⟨0, 0, []⟩).1 = 2 ∧
    isOkE (collect_stats envTwo "pw" 10 ⟨0, 0, []⟩).2.2 = true := by
  decide

/-- A write in a cycle's trace carries the fixed measurement name, the
collection time, and the complete field mapping of some extracted record. -/
theorem cycle_write_shape (env : Env) (pw : String) (s : SState)
    (m : String) (t : Int) (fl : List (String × FieldValue))
    (hmem : Act.write m t fl ∈ (cycleBody env pw s).1) :
    m = "data_stats" ∧ t = env.now ∧ fl.map Prod.fst = statsFieldNames := by
  unfold cycleBody at hmem
  rcases hcol : collect_stats env pw env.recLimit s with ⟨tr, s1, r⟩
  rw [hcol] at hmem
  have hz : countWrites tr = 0 := by
    have := collect_countWrites env pw env.recLimit s
    rw [hcol] at this
    exact this
  cases r with
  | error e =>
    dsimp only at hmem
    exact absurd hmem (countWrites_zero_not_mem hz m t fl)
  | ok st =>
    dsimp only at hmem
    by_cases hs : env.sink s1.widx = true
    · rw [if_pos hs] at hmem
      rcases List.mem_append.mp hmem with hin | hin
      · exact absurd hin (countWrites_zero_not_mem hz m t fl)
      · have h := List.mem_singleton.mp hin
        injection h with h1 h2 h3
        subst h1
        subst h2
        subst h3
        exact ⟨rfl, rfl, rfl⟩
    · rw [if_neg hs] at hmem
      dsimp only at hmem
      exact absurd hmem (countWrites_zero_not_mem hz m t fl)

/-- C2: (i) every point the collection loop ever hands to the sink carries
the fixed measurement name and a field mapping whose keys are exactly the
fourteen `Stats` field names, in order — a partial record is never
forwarded; (ii) a cycle whose body fails forwards nothing at all. -/
theorem C2_thm :
    (∀ (env : Env) (pw : String) (n : Nat) (s : SState) (m : String)
      (t : Int) (fl : List (String × FieldValue)),
      Act.write m t fl ∈ (runLoop env pw n s).1 →
      m = "data_stats" ∧ fl.map Prod.fst = statsFieldNames) ∧
    (∀ (env : Env) (pw : String) (s : SState) (e : PyErr),
      (cycleBody env pw s).2.2 = Except.error e →
      countWrites (cycleBody env pw s).1 = 0) := by
  constructor
  · intro env pw n
    induction n with
    | zero =>
      intro s m t fl hmem
      simp [runLoop] at hmem
    | succ k ih =>
      intro s m t fl hmem
      unfold runLoop at hmem
      rcases hcb : cycleBody env pw s with ⟨tr, s1, r⟩
      have hshape : Act.write m t fl ∈ tr →
          m = "data_stats" ∧ t = env.now ∧ fl.map Prod.fst = statsFieldNames := by
        intro hin
        apply cycle_write_shape env pw s m t fl
        rw [hcb]
        exact hin
      rw [hcb] at hmem
      rcases hrl : runLoop env pw k s1 with ⟨tr2, o⟩
      have ih1 : Act.write m t fl ∈ tr2 →
          m = "data_stats" ∧ fl.map Prod.fst = statsFieldNames := by
        intro hin
        have := ih s1 m t fl
        rw [hrl] at this
        exact this hin
      cases r with
      | ok u =>
        dsimp only at hmem
        rw [hrl] at hmem
        dsimp only at hmem
        rcases List.mem_append.mp hmem with hin | hin
        · rcases hshape hin with ⟨ha, hb, hcq⟩
          exact ⟨ha, hcq⟩
        · rcases List.mem_cons.mp hin with h | h
          · cases h
          · exact ih1 h
      | error e =>
        dsimp only at hmem
        by_cases hex : e.isException = true
        · rw [if_pos hex] at hmem
          rw [hrl] at hmem
          dsimp only at hmem
          rcases List.mem_append.mp hmem with hin | hin
          · rcases hshape hin with ⟨ha, hb, hcq⟩
            exact ⟨ha, hcq⟩
          · rcases List.mem_cons.mp hin with h | h
            · cases h
            · rcases List.mem_cons.mp h with h2 | h2
              · cases h2
              · exact ih1 h2
        · rw [if_neg hex] at hmem
          dsimp only at hmem
          rcases hshape hmem with ⟨ha, hb, hcq⟩
          exact ⟨ha, hcq⟩
  · intro env pw s e herr
    unfold cycleBody at herr ⊢
    rcases hcol : collect_stats env pw env.recLimit s with ⟨tr, s1, r⟩
    have hz : countWrites tr = 0 := by
      have := collect_countWrites env pw env.recLimit s
      rw [hcol] at this
      exact this
    cases r with
    | error e2 =>
      dsimp only
      exact hz
    | ok st =>
      rw [hcol] at herr
      dsimp only at herr ⊢
      by_cases hs : env.sink s1.widx = true
      · rw [if_pos hs] at herr
        simp at herr
      · rw [if_neg hs]
        dsimp only
        exact hz

/-- A failed row lookup raises an `Exception` (an `AttributeError`). -/
theorem getTd_exc {page : Page} {lbl : String} {e : PyErr}
    (h : getTd page lbl = Except.error e) : e.isException = true := by
  unfold getTd at h
  split at h
  · injection h with h1
    subst h1
    rfl
  · exact Except.noConfusion h

/-- A failed pair unpacking raises an `Exception` (a `ValueError`). -/
theorem splitPair_exc {s : String} {e : PyErr}
    (h : splitPair s = Except.error e) : e.isException = true := by
  unfold splitPair at h
  split at h
  · exact Except.noConfusion h
  · injection h with h1
    subst h1
    rfl

/-- A failed `human2bytes` conversion raises an `Exception`. -/
theorem mapHuman_exc {env : Env} {l : List String} {e : PyErr}
    (h : mapHuman env l = Except.error e) : e.isException = true := by
  induction l with
  | nil => exact Except.noConfusion h
  | cons v rest ih =>
    unfold mapHuman at h
    split at h
    · injection h with h1
      subst h1
      rfl
    · split at h
      · injection h with h1
        subst h1
        exact ih (by assumption)
      · exact Except.noConfusion h

/-- A failed `int(...)` conversion raises an `Exception`. -/
theorem parseIntE_exc {env : Env} {s : String} {e : PyErr}
    (h : parseIntE env s = Except.error e) : e.isException = true := by
  unfold parseIntE at h
  split at h
  · injection h with h1
    subst h1
    rfl
  · exact Except.noConfusion h

/-- A failed `float(...)` conversion raises an `Exception`. -/
theorem parseFloatE_exc {env : Env} {s : String} {e : PyErr}
    (h : parseFloatE env s = Except.error e) : e.isException = true := by
  unfold parseFloatE at h
  split at h
  · injection h with h1
    subst h1
    rfl
  · exact Except.noConfusion h

/-- A failure in the usage-row scrape raises an `Exception`. -/
theorem getUsage_exc {env : Env} {page : Page} {e : PyErr}
    (h : getUsage env page = Except.error e) : e.isException = true := by
  unfold getUsage at h
  repeat' split at h
  all_goals first
    | exact Except.noConfusion h
    | (injection h with h1; subst h1;
       first
         | rfl
         | exact getTd_exc (by assumption)
         | exact mapHuman_exc (by assumption))

/-- A failure in the firmware-row scrape raises an `Exception`. -/
theorem getFirmware_exc {env : Env} {page : Page} {e : PyErr}
    (h : getFirmware env page = Except.error e) : e.isException = true := by
  unfold getFirmware at h
  repeat' split at h
  all_goals first
    | exact Except.noConfusion h
    | (injection h with h1; subst h1;
       first
         | rfl
         | exact getTd_exc (by assumption))

/-- A failure in the reboot-time computation raises an `Exception`. -/
theorem getReboot_exc {env : Env} {text : String} {e : PyErr}
    (h : getReboot env text = Except.error e) : e.isException = true := by
  unfold getReboot at h
  repeat' split at h
  all_goals first
    | exact Except.noConfusion h
    | (injection h with h1; subst h1; rfl)

/-- A failure scraping a paired row raises an `Exception`. -/
theorem getPairStr_exc {page : Page} {lbl : String} {e : PyErr}
    (h : getPairStr page lbl = Except.error e) : e.isException = true := by
  unfold getPairStr at h
  split at h
  · injection h with h1
    subst h1
    exact getTd_exc (by assumption)
  · exact splitPair_exc h

/-- Every error raised by the extraction phase is an ordinary `Exception`
(never a `SystemExit` or a `KeyboardInterrupt`). -/
theorem extract_err_exc {env : Env} {page : Page} {e : PyErr}
    (h : extractStats env page = Except.error e) : e.isException = true := by
  unfold extractStats at h
  repeat' split at h
  all_goals first
    | exact Except.noConfusion h
    | (injection h with h1; subst h1;
       first
         | rfl
         | exact getUsage_exc (by assumption)
         | exact getFirmware_exc (by assumption)
         | exact getReboot_exc (by assumption)
         | exact getPairStr_exc (by assumption)
         | exact parseIntE_exc (by assumption)
         | exact parseFloatE_exc (by assumption))

/-- A failed HTTP request raises either a transport error or an interrupt. -/
theorem doReq_err {env : Env} {s sx : SState} {e : PyErr}
    (h : doReq env s = (sx, Except.error e)) :
    e = PyErr.networkError ∨ e = PyErr.keyboardInterrupt := by
  unfold doReq at h
  split at h
  · simp only [Prod.mk.injEq] at h
    rcases h with ⟨h1, h2⟩
    injection h2 with h3
    subst h3
    left
    rfl
  · simp only [Prod.mk.injEq] at h
    rcases h with ⟨h1, h2⟩
    injection h2 with h3
    subst h3
    right
    rfl
  · simp only [Prod.mk.injEq] at h
    rcases h with ⟨h1, h2⟩
    exact Except.noConfusion h2

/-- A `login` failure the `except Exception` handler cannot catch is either
the session-limit `exit(1)` — in which case the fetched login page carried
the limit marker — or an interrupt. -/
theorem login_err_class {env : Env} {pw : String} {s : SState}
    {tr : List Act} {s1 : SState} {e : PyErr}
    (h : login env pw s = (tr, s1, Except.error e))
    (hf : e.isException = false) :
    (e = PyErr.systemExit 1 ∧
      ∃ p, Act.getLogin p ∈ tr ∧ containsStr p.text limitMarker = true) ∨
    e = PyErr.keyboardInterrupt := by
  unfold login at h
  rcases hreq : doReq env s with ⟨sx, g⟩
  rw [hreq] at h
  cases g with
  | error e1 =>
    dsimp only at h
    simp only [Prod.mk.injEq] at h
    rcases h with ⟨htr, hs1, herr⟩
    injection herr with he
    subst he
    rcases doReq_err hreq with h2 | h2
    · rw [h2] at hf
      simp [PyErr.isException] at hf
    · right
      exact h2
  | ok page =>
    dsimp only at h
    by_cases hlim : containsStr page.text limitMarker = true
    · rw [if_pos hlim] at h
      simp only [Prod.mk.injEq] at h
      rcases h with ⟨htr, hs1, herr⟩
      injection herr with he
      subst he
      left
      refine ⟨rfl, page, ?_, hlim⟩
      rw [← htr]
      simp
    · rw [if_neg hlim] at h
      cases hak : page.inputValue "auth_key" with
      | none =>
        rw [hak] at h
        dsimp only at h
        simp only [Prod.mk.injEq] at h
        rcases h with ⟨htr, hs1, herr⟩
        injection herr with he
        rw [← he] at hf
        simp [PyErr.isException] at hf
      | some ak =>
        rw [hak] at h
        dsimp only at h
        cases hpt : page.inputValue "post_token" with
        | none =>
          rw [hpt] at h
          dsimp only at h
          simp only [Prod.mk.injEq] at h
          rcases h with ⟨htr, hs1, herr⟩
          injection herr with he
          rw [← he] at hf
          simp [PyErr.isException] at hf
        | some pt =>
          rw [hpt] at h
          dsimp only at h
          rcases hpost : doReq env sx with ⟨sy, g2⟩
          rw [hpost] at h
          cases g2 with
          | error e2 =>
            dsimp only at h
            simp only [Prod.mk.injEq] at h
            rcases h with ⟨htr, hs1, herr⟩
            injection herr with he
            subst he
            rcases doReq_err hpost with h2 | h2
            · rw [h2] at hf
              simp [PyErr.isException] at hf
            · right
              exact h2
          | ok page2 =>
            dsimp only at h
            simp only [Prod.mk.injEq] at h
            rcases h with ⟨htr, hs1, herr⟩
            exact Except.noConfusion herr

/-- A `collect_stats` failure the handler cannot catch is either the
session-limit `exit(1)` — with the limit-marked login page in the trace —
or an interrupt. -/
theorem collect_err_class {env : Env} {pw : String} {fuel : Nat} {s : SState}
    {tr : List Act} {s1 : SState} {e : PyErr}
    (h : collect_stats env pw fuel s = (tr, s1, Except.error e))
    (hf : e.isException = false) :
    (e = PyErr.systemExit 1 ∧
      ∃ p, Act.getLogin p ∈ tr ∧ containsStr p.text limitMarker = true) ∨
    e = PyErr.keyboardInterrupt := by
  induction fuel generalizing s tr s1 with
  | zero =>
    unfold collect_stats at h
    simp only [Prod.mk.injEq] at h
    rcases h with ⟨htr, hs1, herr⟩
    injection herr with he
    rw [← he] at hf
    simp [PyErr.isException] at hf
  | succ n ih =>
    unfold collect_stats at h
    rcases hreq : doReq env s with ⟨sx, g⟩
    rw [hreq] at h
    cases g with
    | error e1 =>
      dsimp only at h
      simp only [Prod.mk.injEq] at h
      rcases h with ⟨htr, hs1, herr⟩
      injection herr with he
      subst he
      rcases doReq_err hreq with h2 | h2
      · rw [h2] at hf
        simp [PyErr.isException] at hf
      · right
        exact h2
    | ok page =>
      dsimp only at h
      cases hck : getCookie sx.cookies cookieName with
      | none =>
        rw [hck] at h
        dsimp only at h
        simp only [Prod.mk.injEq] at h
        rcases h with ⟨htr, hs1, herr⟩
        injection herr with he
        rw [← he] at hf
        simp [PyErr.isException] at hf
      | some v =>
        rw [hck] at h
        dsimp only at h
        by_cases hm : containsStr page.text expiredMarker = true
        · rw [if_pos hm] at h
          rcases hl : login env pw sx with ⟨trL, s2, rl⟩
          rw [hl] at h
          cases rl with
          | error e2 =>
            dsimp only at h
            simp only [Prod.mk.injEq] at h
            rcases h with ⟨htr, hs1, herr⟩
            injection herr with he
            subst he
            rcases login_err_class hl hf with ⟨h1, p, hp, hmk⟩ | h2
            · left
              refine ⟨h1, p, ?_, hmk⟩
              rw [← htr]
              simp [hp]
            · right
              exact h2
          | ok u =>
            dsimp only at h
            rcases hr : collect_stats env pw n s2 with ⟨trR, s3, r⟩
            rw [hr] at h
            dsimp only at h
            simp only [Prod.mk.injEq] at h
            rcases h with ⟨htr, hs1, herr⟩
            cases r with
            | ok st => exact Except.noConfusion herr
            | error e3 =>
              injection herr with he
              subst he
              rcases ih hr with ⟨h1, p, hp, hmk⟩ | h2
              · left
                refine ⟨h1, p, ?_, hmk⟩
                rw [← htr]
                simp [hp]
              · right
                exact h2
        · rw [if_neg hm] at h
          simp only [Prod.mk.injEq] at h
          rcases h with ⟨htr, hs1, herr⟩
          have hexc := extract_err_exc herr
          rw [hexc] at hf
          exact Bool.noConfusion hf

/-- A cycle-body failure the handler cannot catch is either the
session-limit `exit(1)` — with the limit-marked login page in the trace —
or an interrupt. -/
theorem cycle_err_class {env : Env} {pw : String} {s : SState}
    {tr : List Act} {s1 : SState} {e : PyErr}
    (h : cycleBody env pw s = (tr, s1, Except.error e))
    (hf : e.isException = false) :
    (e = PyErr.systemExit 1 ∧
      ∃ p, Act.getLogin p ∈ tr ∧ containsStr p.text limitMarker = true) ∨
    e = PyErr.keyboardInterrupt := by
  unfold cycleBody at h
  rcases hcol : collect_stats env pw env.recLimit s with ⟨trc, sc1, r⟩
  rw [hcol] at h
  cases r with
  | error e2 =>
    dsimp only at h
    simp only [Prod.mk.injEq] at h
    rcases h with ⟨htr, hs1, herr⟩
    injection herr with he
    subst he
    rcases collect_err_class hcol hf with ⟨h1, p, hp, hmk⟩ | h2
    · left
      refine ⟨h1, p, ?_, hmk⟩
      rw [← htr]
      exact hp
    · right
      exact h2
  | ok st =>
    dsimp only at h
    by_cases hs : env.sink sc1.widx = true
    · rw [if_pos hs] at h
      simp only [Prod.mk.injEq] at h
      rcases h with ⟨htr, hs1, herr⟩
      exact Except.noConfusion herr
    · rw [if_neg hs] at h
      simp only [Prod.mk.injEq] at h
      rcases h with ⟨htr, hs1, herr⟩
      injection herr with he
      rw [← he] at hf
      simp [PyErr.isException] at hf

/-- If the collection loop ends with an exit code, the code is 0 (an
interrupt) or 1 — and an exit code 1 stems from a login page carrying the
session-limit marker, present in the loop's trace. -/
theorem runLoop_exit_class {env : Env} {pw : String} {n : Nat} {s : SState}
    {tr : List Act} {c : Nat}
    (h : runLoop env pw n s = (tr, Outcome.exited c)) :
    c = 0 ∨
    (c = 1 ∧ ∃ p, Act.getLogin p ∈ tr ∧ containsStr p.text limitMarker = true) := by
  induction n generalizing s tr with
  | zero =>
    unfold runLoop at h
    simp only [Prod.mk.injEq] at h
    rcases h with ⟨htr, ho⟩
    exact Outcome.noConfusion ho
  | succ k ih =>
    unfold runLoop at h
    rcases hcb : cycleBody env pw s with ⟨trc, s1, r⟩
    rw [hcb] at h
    cases r with
    | ok u =>
      dsimp only at h
      rcases hrl : runLoop env pw k s1 with ⟨tr2, o⟩
      rw [hrl] at h
      dsimp only at h
      simp only [Prod.mk.injEq] at h
      rcases h with ⟨htr, ho⟩
      subst ho
      rcases ih hrl with h0 | ⟨h1, p, hp, hmk⟩
      · left
        exact h0
      · right
        refine ⟨h1, p, ?_, hmk⟩
        rw [← htr]
        simp [hp]
    | error e =>
      dsimp only at h
      by_cases hex : e.isException = true
      · rw [if_pos hex] at h
        rcases hrl : runLoop env pw k s1 with ⟨tr2, o⟩
        rw [hrl] at h
        dsimp only at h
        simp only [Prod.mk.injEq] at h
        rcases h with ⟨htr, ho⟩
        subst ho
        rcases ih hrl with h0 | ⟨h1, p, hp, hmk⟩
        · left
          exact h0
        · right
          refine ⟨h1, p, ?_, hmk⟩
          rw [← htr]
          simp [hp]
      · rw [if_neg hex] at h
        simp only [Prod.mk.injEq] at h
        rcases h with ⟨htr, ho⟩
        have hf : e.isException = false := by
          cases hb : e.isException
          · rfl
          · exact absurd hb hex
        rcases cycle_err_class hcb hf with ⟨h1, p, hp, hmk⟩ | h2
        · subst h1
          unfold escalate at ho
          injection ho with hc
          right
          refine ⟨hc.symm, p, ?_, hmk⟩
          rw [← htr]
          exact hp
        · subst h2
          unfold escalate at ho
          injection ho with hc
          left
          exact hc.symm

/-- The collection loop never ends in an uncaught-exception crash: every
ordinary `Exception` in a cycle is caught by the handler. -/
theorem runLoop_no_crash {env : Env} {pw : String} {n : Nat} {s : SState}
    {tr : List Act} {e : PyErr}
    (h : runLoop env pw n s = (tr, Outcome.crashed e)) : False := by
  induction n generalizing s tr with
  | zero =>
    unfold runLoop at h
    simp only [Prod.mk.injEq] at h
    rcases h with ⟨htr, ho⟩
    exact Outcome.noConfusion ho
  | succ k ih =>
    unfold runLoop at h
    rcases hcb : cycleBody env pw s with ⟨trc, s1, r⟩
    rw [hcb] at h
    cases r with
    | ok u =>
      dsimp only at h
      rcases hrl : runLoop env pw k s1 with ⟨tr2, o⟩
      rw [hrl] at h
      dsimp only at h
      simp only [Prod.mk.injEq] at h
      rcases h with ⟨htr, ho⟩
      subst ho
      exact ih hrl
    | error e2 =>
      dsimp only at h
      by_cases hex : e2.isException = true
      · rw [if_pos hex] at h
        rcases hrl : runLoop env pw k s1 with ⟨tr2, o⟩
        rw [hrl] at h
        dsimp only at h
        simp only [Prod.mk.injEq] at h
        rcases h with ⟨htr, ho⟩
        subst ho
        exact ih hrl
      · rw [if_neg hex] at h
        simp only [Prod.mk.injEq] at h
        rcases h with ⟨htr, ho⟩
        have hf : e2.isException = false := by
          cases hb : e2.isException
          · rfl
          · exact absurd hb hex
        rcases cycle_err_class hcb hf with ⟨h1, p, hp, hmk⟩ | h2
        · subst h1
          unfold escalate at ho
          exact Outcome.noConfusion ho
        · subst h2
          unfold escalate at ho
          exact Outcome.noConfusion ho

/-- C3 (amended): the session-limit marker on the login fetch makes the
process exit with code 1 having run no collection cycle; within the loop an
exit code other than the interrupt's 0 can only be 1 and only stem from the
session-limit page. (The startup login, however, can also terminate the
process by an uncaught error — see the counterexample.) -/
theorem C3_thm :
    (∀ (env : Env) (pw : String) (n : Nat) (r : Response),
      env.http 0 = HttpResult.ok r →
      containsStr r.page.text limitMarker = true →
      mainRun env pw n =
        ([Act.loginCall, Act.getLogin r.page], Outcome.exited 1)) ∧
    (∀ (env : Env) (pw : String) (n : Nat) (s : SState) (tr : List Act)
      (c : Nat),
      runLoop env pw n s = (tr, Outcome.exited c) → c ≠ 0 →
      c = 1 ∧ ∃ p, Act.getLogin p ∈ tr ∧ containsStr p.text limitMarker = true) := by
  constructor
  · intro env pw n r h0 hm
    unfold mainRun login doReq
    rw [h0]
    dsimp only
    rw [if_pos hm]
    rfl
  · intro env pw n s tr c h hc
    rcases runLoop_exit_class h with h0 | hgood
    · exact absurd h0 hc
    · exact hgood

/-- C3 (witness): with the router serving the session-limit page, the
process exits with code 1 and the trace shows no cycle was run. -/
theorem C3_w :
    mainRun envLimit "pw" 3 =
      ([Act.loginCall, Act.getLogin limitPage], Outcome.exited 1) :=
  C3_thm.1 envLimit "pw" 3 ⟨limitPage, []⟩ rfl (by decide)

/-- C3 (counterexample): the session-limit condition is not the only error
condition that terminates the process on its own — with the router
unreachable, the startup `login()` (which runs outside any handler) raises
a transport error that crashes the process before any cycle. -/
theorem C3_cex :
    mainRun envNet "pw" 5 = ([Act.loginCall], Outcome.crashed PyErr.networkError) ∧
    envNet.http 0 = HttpResult.netErr := by
  constructor
  · rfl
  · rfl

/-- C4: (i) a cycle failing with any ordinary `Exception` is logged and
followed by the fixed-interval sleep and the next scheduled cycle; (ii) the
loop only ever exits with code 0 (interrupt) or 1 (session limit); (iii)
the loop never terminates by an uncaught exception. -/
theorem C4_thm :
    (∀ (env : Env) (pw : String) (n : Nat) (s : SState) (tr : List Act)
      (s1 : SState) (e : PyErr),
      cycleBody env pw s = (tr, s1, Except.error e) → e.isException = true →
      runLoop env pw (n + 1) s =
        (tr ++ Act.logErr e :: Act.sleep env.interval ::
          (runLoop env pw n s1).1,
         (runLoop env pw n s1).2)) ∧
    (∀ (env : Env) (pw : String) (n : Nat) (s : SState) (tr : List Act)
      (c : Nat),
      runLoop env pw n s = (tr, Outcome.exited c) → c = 0 ∨ c = 1) ∧
    (∀ (env : Env) (pw : String) (n : Nat) (s : SState) (tr : List Act)
      (e : PyErr),
      runLoop env pw n s = (tr, Outcome.crashed e) → False) := by
  refine ⟨?_, ?_, ?_⟩
  · intro env pw n s tr s1 e hcb hex
    rcases hrl : runLoop env pw n s1 with ⟨tr2, o⟩
    unfold runLoop
    rw [hcb]
    dsimp only
    rw [if_pos hex, hrl]
  · intro env pw n s tr c h
    rcases runLoop_exit_class h with h0 | ⟨h1, hrest⟩
    · left
      exact h0
    · right
      exact h1
  · intro env pw n s tr e h
    exact runLoop_no_crash h

/-- C4 (witness): a page with no scrapeable rows makes the cycle fail with
an `AttributeError`; the loop logs it, sleeps the interval, and schedules
the next cycle. -/
theorem C4_w :
    runLoop envMiss "pw" (0 + 1) ⟨0, 0, []⟩ =
      ([Act.getStatus blankPage] ++ Act.logErr PyErr.attributeError ::
        Act.sleep 15 ::
        (runLoop envMiss "pw" 0 ⟨1, 0, [("rg_cookie_session_id", "abc")]⟩).1,
       (runLoop envMiss "pw" 0 ⟨1, 0, [("rg_cookie_session_id", "abc")]⟩).2) :=
  C4_thm.1 envMiss "pw" 0 ⟨0, 0, []⟩ [Act.getStatus blankPage]
    ⟨1, 0, [("rg_cookie_session_id", "abc")]⟩ PyErr.attributeError rfl rfl

/-- C5: when the login page yields the auth inputs, `login()` submits the
login form containing the MD5 of (plaintext password ++ auth key) as
`md5_pass`, together with the scraped `post_token` and `auth_key`. -/
theorem C5_thm (env : Env) (pw : String) (s sx sy : SState)
    (page page2 : Page) (auth_key post_token : String)
    (h1 : doReq env s = (sx, Except.ok page))
    (h2 : containsStr page.text limitMarker = false)
    (h3 : page.inputValue "auth_key" = some auth_key)
    (h4 : page.inputValue "post_token" = some post_token)
    (h5 : doReq env sx = (sy, Except.ok page2)) :
    login env pw s =
      ([Act.loginCall, Act.getLogin page,
        Act.postLogin
          (loginForm post_token (env.md5 (pw ++ auth_key)) auth_key)],
       sy, Except.ok ()) := by
  unfold login
  rw [h1]
  dsimp only
  rw [if_neg (by simp [h2])]
  rw [h3]
  dsimp only
  rw [h4]
  dsimp only
  rw [h5]

/-- C5 (witness): the concrete login run submits
`md5_pass = md5("pw" ++ "AK")` with post token "PT" and auth key "AK". -/
theorem C5_w :
    login envLogin "pw" ⟨0, 0, []⟩ =
      ([Act.loginCall, Act.getLogin loginPage,
        Act.postLogin
          (loginForm "PT" (envLogin.md5 ("pw" ++ "AK")) "AK")],
       ⟨2, 0, []⟩, Except.ok ()) :=
  C5_thm envLogin "pw" ⟨0, 0, []⟩ ⟨1, 0, []⟩ ⟨2, 0, []⟩ loginPage blankPage
    "AK" "PT" rfl (by decide) rfl rfl rfl

/-- A successful row lookup means the label is on the page. -/
theorem getTd_ok_isSome {page : Page} {lbl : String} {v : String}
    (h : getTd page lbl = Except.ok v) : (page.td lbl).isSome = true := by
  unfold getTd at h
  split at h
  · exact Except.noConfusion h
  · rename_i t heq
    rw [heq]
    rfl

/-- The usage row resolved, so its label is on the page. -/
theorem getUsage_td {env : Env} {page : Page} {v : Int × Int}
    (h : getUsage env page = Except.ok v) :
    (page.td usageLabel).isSome = true := by
  unfold getUsage at h
  repeat' split at h
  all_goals first
    | exact Except.noConfusion h
    | exact getTd_ok_isSome (by assumption)

/-- The firmware row resolved, so its label is on the page. -/
theorem getFirmware_td {env : Env} {page : Page} {v : Int}
    (h : getFirmware env page = Except.ok v) :
    (page.td fwLabel).isSome = true := by
  unfold getFirmware at h
  repeat' split at h
  all_goals first
    | exact Except.noConfusion h
    | exact getTd_ok_isSome (by assumption)

/-- A paired row resolved, so its label is on the page. -/
theorem getPairStr_td {page : Page} {lbl : String} {v : String × String}
    (h : getPairStr page lbl = Except.ok v) :
    (page.td lbl).isSome = true := by
  unfold getPairStr at h
  split at h
  · exact Except.noConfusion h
  · exact getTd_ok_isSome (by assumption)

/-- C6: (i) extraction succeeds only when every expected labeled row is
present on the page; (ii) in particular, when the usage row
("11. Data sent/received:") is absent, extraction fails with the
missing-field error (Python's `AttributeError` on the failed `find`). -/
theorem C6_thm :
    (∀ (env : Env) (page : Page) (st : Stats),
      extractStats env page = Except.ok st → labelsPresent page = true) ∧
    (∀ (env : Env) (page : Page),
      page.td usageLabel = none →
      extractStats env page = Except.error PyErr.attributeError) := by
  constructor
  · intro env page st h
    unfold extractStats at h
    repeat' split at h
    all_goals first
      | exact Except.noConfusion h
      | (simp only [labelsPresent, expectedLabels, List.all_cons, List.all_nil,
          Bool.and_eq_true]
         refine ⟨getUsage_td (by assumption), getFirmware_td (by assumption),
           getPairStr_td (by assumption), getPairStr_td (by assumption),
           getPairStr_td (by assumption), getPairStr_td (by assumption),
           getPairStr_td (by assumption), trivial⟩)
  · intro env page h
    unfold extractStats getUsage getTd
    rw [h]

/-- C6 (witness): a page with no rows at all fails extraction with the
missing-field error. -/
theorem C6_w :
    extractStats envNet blankPage = Except.error PyErr.attributeError :=
  C6_thm.2 envNet blankPage rfl

/-- A successful extraction pins the derived timestamps to the firmware and
reboot computations. -/
theorem extract_ok_parts {env : Env} {page : Page} {st : Stats}
    (h : extractStats env page = Except.ok st) :
    getFirmware env page = Except.ok st.firmware_update_datetime ∧
    getReboot env page.text = Except.ok st.reboot_datetime := by
  unfold extractStats at h
  repeat' split at h
  all_goals first
    | exact Except.noConfusion h
    | (injection h with h1; subst h1; constructor <;> assumption)

/-- C7: on a successful extraction the record's reboot timestamp is the
current time minus the uptime seconds pattern-matched from the page's
script content, and its firmware-update timestamp is parsed from the date
string following "Last updated " in the firmware-version row. -/
theorem C7_thm (env : Env) (page : Page) (st : Stats) (ds : String)
    (u : Int) (raw d : String) (t : Int)
    (h : extractStats env page = Except.ok st)
    (h1 : rebootSearch page.text = some ds)
    (h2 : env.parseInt ds = some u)
    (h3 : page.td fwLabel = some raw)
    (h4 : (pySplit raw "Last updated ").get? 1 = some d)
    (h5 : env.parseDateDMY d = some t) :
    st.reboot_datetime = env.now - u ∧ st.firmware_update_datetime = t := by
  rcases extract_ok_parts h with ⟨hf, hr⟩
  constructor
  · unfold getReboot at hr
    rw [h1] at hr
    dsimp only at hr
    rw [h2] at hr
    injection hr with he
    exact he.symm
  · unfold getFirmware getTd at hf
    rw [h3] at hf
    dsimp only at hf
    rw [h4] at hf
    dsimp only at hf
    rw [h5] at hf
    injection hf with he
    exact he.symm

/-- C7 (witness): on the concrete good page the reboot timestamp is
`now - 120` (the `wait = 120;` uptime) and the firmware timestamp is the
parse of "01/02/21". -/
theorem C7_w :
    stGood.reboot_datetime = envGood.now - 120 ∧
    stGood.firmware_update_datetime = 1612137600 :=
  C7_thm envGood goodPage stGood "120" 120
    "4.7.5.1.83.8.265.1.41 (Type A) Last updated 01/02/21" "01/02/21"
    1612137600 rfl rfl rfl rfl rfl rfl

/-- C8: a cycle whose extraction succeeds and whose sink accepts the write
appends exactly one point to the trace, with the fixed measurement name
"data_stats", the collection time, and `asdict(stats)` as its complete
field mapping. -/
theorem C8_thm (env : Env) (pw : String) (s : SState) (ctr : List Act)
    (s2 : SState) (st : Stats)
    (hcol : collect_stats env pw env.recLimit s = (ctr, s2, Except.ok st))
    (hs : env.sink s2.widx = true) :
    cycleBody env pw s =
      (ctr ++ [Act.write "data_stats" env.now st.fields],
       { s2 with widx := s2.widx + 1 }, Except.ok ()) ∧
    countWrites ctr = 0 ∧
    (Stats.fields st).map Prod.fst = statsFieldNames := by
  refine ⟨?_, ?_, rfl⟩
  · unfold cycleBody
    rw [hcol]
    dsimp only
    rw [if_pos hs]
  · have := collect_countWrites env pw env.recLimit s
    rw [hcol] at this
    exact this

/-- C8 (witness): the concrete good cycle writes exactly the one point
`("data_stats", now, asdict(stGood))`. -/
theorem C8_w :
    cycleBody envGood "pw" ⟨0, 0, []⟩ =
      ([Act.getStatus goodPage] ++ [Act.write "data_stats" envGood.now stGood.fields],
       ⟨1, 1, [("rg_cookie_session_id", "abc")]⟩, Except.ok ()) ∧
    countWrites [Act.getStatus goodPage] = 0 ∧
    (Stats.fields stGood).map Prod.fst = statsFieldNames :=
  C8_thm envGood "pw" ⟨0, 0, []⟩ [Act.getStatus goodPage]
    ⟨1, 0, [("rg_cookie_session_id", "abc")]⟩ stGood rfl rfl

/-- C9: `collect_stats` reads the session cookie before checking the
login marker, so a missing `rg_cookie_session_id` raises a `KeyError` — an
ordinary cycle error — whatever the page contains, and the re-login path is
never reached without the cookie. -/
theorem C9_thm (env : Env) (pw : String) (fuel : Nat) (s s1 : SState)
    (page : Page)
    (h1 : doReq env s = (s1, Except.ok page))
    (h2 : getCookie s1.cookies cookieName = none) :
    collect_stats env pw (fuel + 1) s =
      ([Act.getStatus page], s1, Except.error (PyErr.keyError cookieName)) ∧
    PyErr.isException (PyErr.keyError cookieName) = true := by
  refine ⟨?_, rfl⟩
  unfold collect_stats
  rw [h1]
  dsimp only
  rw [h2]

/-- C9 (witness): the served page carries the expired-session marker, yet
with no cookie in the jar the call raises `KeyError` and performs no
re-login. -/
theorem C9_w :
    collect_stats envNoCookie "pw" (9 + 1) ⟨0, 0, []⟩ =
      ([Act.getStatus expiredPage], ⟨1, 0, []⟩,
       Except.error (PyErr.keyError cookieName)) ∧
    PyErr.isException (PyErr.keyError cookieName) = true ∧
    containsStr expiredPage.text expiredMarker = true :=
  ⟨(C9_thm envNoCookie "pw" 9 ⟨0, 0, []⟩ ⟨1, 0, []⟩ expiredPage rfl rfl).1,
   (C9_thm envNoCookie "pw" 9 ⟨0, 0, []⟩ ⟨1, 0, []⟩ expiredPage rfl rfl).2,
   by decide⟩

/-- C10: the loop's `except Exception` does not intercept the `SystemExit`
raised by the session-limit check during an in-cycle re-login: the cycle's
`SystemExit 1` terminates the process with exit code 1 instead of being
logged and continued. -/
theorem C10_thm (env : Env) (pw : String) (n : Nat) (s : SState)
    (tr : List Act) (s1 : SState)
    (h : cycleBody env pw s = (tr, s1, Except.error (PyErr.systemExit 1))) :
    runLoop env pw (n + 1) s = (tr, Outcome.exited 1) ∧
    PyErr.isException (PyErr.systemExit 1) = false := by
  refine ⟨?_, rfl⟩
  unfold runLoop
  rw [h]
  rfl

/-- C10 (witness): an expired-session page followed by the session-limit
page on the re-login makes the cycle raise `SystemExit 1`, and the loop
terminates with exit code 1. -/
theorem C10_w :
    runLoop envMidLimit "pw" (0 + 1) ⟨0, 0, []⟩ =
      ([Act.getStatus expiredPage, Act.warnExpired, Act.loginCall,
        Act.getLogin limitPage], Outcome.exited 1) :=
  (C10_thm envMidLimit "pw" 0 ⟨0, 0, []⟩
    [Act.getStatus expiredPage, Act.warnExpired, Act.loginCall,
      Act.getLogin limitPage]
    ⟨2, 0, [("rg_cookie_session_id", "abc")]⟩ rfl).1

/-- C2 (witness): the point written in the concrete good run carries the
full field-name list, and the concrete failing cycle forwards nothing. -/
theorem C2_w :
    ("data_stats" = "data_stats" ∧
      (Stats.fields stGood).map Prod.fst = statsFieldNames) ∧
    countWrites (cycleBody envNet "pw" ⟨0, 0, []⟩).1 = 0 :=
  ⟨C2_thm.1 envGood "pw" 1 ⟨0, 0, []⟩ "data_stats" envGood.now stGood.fields
      (List.Mem.tail _ (List.Mem.head _)),
   C2_thm.2 envNet "pw" ⟨0, 0, []⟩ PyErr.networkError rfl⟩
